import Mathlib

/-!
Shallow embedding of src/server.py, a minimal forking HTTP server.

The source defines module constants HOST, PORT, REQUEST_QUEUE_SIZE and
BUFFER_SIZE, a SIGCHLD handler reap_children, a per-connection handler
handle_request, and the accept loop serve_forever.  Sockets are modelled
as byte streams (List Nat), system calls that can fail as Except values,
and the operating system as an explicit trace of call results.
-/

namespace Server

/-- Module constant HOST from the source (empty string: all interfaces). -/
def HOST : String := ""

/-- Module constant PORT from the source. -/
def PORT : Nat := 8888

/-- Module constant REQUEST_QUEUE_SIZE from the source (listen backlog). -/
def REQUEST_QUEUE_SIZE : Nat := 1024

/-- Module constant BUFFER_SIZE from the source (recv buffer size). -/
def BUFFER_SIZE : Nat := 1024

/-- Text of the hardcoded response literal in handle_request.  The Python
source uses a triple-quoted bytes literal whose leading backslash removes
the first newline; the file has LF line endings, so the literal is the
status line, the content-type header, a blank line and the body, each
terminated by LF. -/
def responseText : String :=
  "HTTP/1.1 200 OK\nContent-Type: text/plain\n\nHello, World!\n"

/-- The fixed response bytes sent by handle_request. -/
def response : List Nat := responseText.toList.map Char.toNat

/-- A connection socket: the bytes the peer has sent that are still
unread, and the bytes the server has written so far. -/
structure Conn where
  input : List Nat
  sent : List Nat
deriving Repr, DecidableEq

/-- Observable operations a Worker performs, in order, on its sockets and
its process: closing the inherited listening socket, a recv returning the
given bytes, a sendall of the given bytes, closing the connection socket,
and exiting with the given status code. -/
inductive Action where
  | closeListen
  | recvA (data : List Nat)
  | sendA (data : List Nat)
  | closeConn
  | exitA (code : Nat)
deriving Repr, DecidableEq

/-- State of a Worker process: its connection and the log of the
operations it has performed. -/
structure Worker where
  conn : Conn
  log : List Action
deriving Repr, DecidableEq

/-- conn.recv(n): return up to n bytes from the front of the unread
input.  An empty result means the peer closed without sending data. -/
def w_recv (w : Worker) (n : Nat) : List Nat × Worker :=
  let data := w.conn.input.take n
  (data,
   { conn := { input := w.conn.input.drop n, sent := w.conn.sent },
     log := w.log ++ [Action.recvA data] })

/-- conn.sendall(data): append data to the bytes written on the
connection. -/
def w_sendall (w : Worker) (data : List Nat) : Worker :=
  { conn := { input := w.conn.input, sent := w.conn.sent ++ data },
    log := w.log ++ [Action.sendA data] }

/-- listen_socket.close() in the child branch. -/
def w_closeListen (w : Worker) : Worker :=
  { w with log := w.log ++ [Action.closeListen] }

/-- client_conn.close() in the child branch. -/
def w_closeConn (w : Worker) : Worker :=
  { w with log := w.log ++ [Action.closeConn] }

/-- os._exit(code) in the child branch. -/
def w_exit (w : Worker) (code : Nat) : Worker :=
  { w with log := w.log ++ [Action.exitA code] }

/-- handle_request from the source: one conn.recv(BUFFER_SIZE); if the
result is empty, return; otherwise sendall the fixed response.  The
print call only writes to stdout and does not touch the connection. -/
def handle_request (w : Worker) : Worker :=
  let r := w_recv w BUFFER_SIZE
  if r.1 = [] then r.2 else w_sendall r.2 response

/-- The child branch of serve_forever after os.fork() returns 0:
listen_socket.close(); handle_request(client_conn); client_conn.close();
os._exit(0).  The pair holds the final Worker state and the exit
status. -/
def child_branch (w : Worker) : Worker × Nat :=
  (w_exit (w_closeConn (handle_request (w_closeListen w))) 0, 0)

/-- A Worker at the start of the child branch: the accepted connection
carries the bytes the client will have sent, nothing written yet, empty
log. -/
def freshWorker (input : List Nat) : Worker :=
  { conn := { input := input, sent := [] }, log := [] }

/-- Modelled from the words of the claims and the spec: the expected
response as status line, LF, content-type header, LF, blank line (LF),
body, trailing LF.  Compared below with the bytes the code emits. -/
def specResponse : List Nat :=
  ("HTTP/1.1 200 OK".toList.map Char.toNat) ++ [10] ++
  ("Content-Type: text/plain".toList.map Char.toNat) ++ [10] ++ [10] ++
  ("Hello, World!".toList.map Char.toNat) ++ [10]

/-- reap_children from the source, over the trace of results of the
os.waitpid(-1, os.WNOHANG) calls it makes: each call either returns a
(pid, status) pair or raises OSError.  The loop body reads the pair,
breaks when pid is 0, and the except clause breaks on OSError; the
function returns the pids reaped and, having caught the OSError, never
itself raises (its result type has no error case). -/
def reap_children : List (Except Unit (Nat × Nat)) → List Nat
  | [] => []
  | Except.ok (pid, _) :: rest =>
      if pid = 0 then [] else pid :: reap_children rest
  | Except.error _ :: _ => []

/-- Linux value of socket.AF_INET. -/
def AF_INET : Nat := 2

/-- Linux value of socket.SOCK_STREAM. -/
def SOCK_STREAM : Nat := 1

/-- Linux value of errno.EINTR. -/
def EINTR : Nat := 4

/-- One step of the startup sequence at the top of serve_forever. -/
inductive SetupStep where
  | createSocket (family sockType : Nat)
  | setReuseAddr
  | bindStep (host : String) (port : Nat)
  | listenStep (backlog : Nat)
deriving Repr, DecidableEq

/-- The listening socket after a successful startup. -/
structure SocketSetup where
  family : Nat
  sockType : Nat
  reuseAddr : Bool
  boundHost : String
  boundPort : Nat
  backlog : Nat
deriving Repr, DecidableEq

/-- A startup failure: the OSError raised by bind or by listen. -/
inductive StartupErr where
  | bindFail
  | listenFail
deriving Repr, DecidableEq

/-- The startup sequence of serve_forever:
socket.socket(AF_INET, SOCK_STREAM); setsockopt(SOL_SOCKET, SO_REUSEADDR, 1);
bind((HOST, PORT)); listen(REQUEST_QUEUE_SIZE).  The two fallible calls
are modelled by the Booleans bindOk and listenOk; the result pairs the
ordered list of calls attempted with either the raised error or the
resulting socket state. -/
def startup (bindOk listenOk : Bool) :
    List SetupStep × Except StartupErr SocketSetup :=
  let createReuse :=
    [SetupStep.createSocket AF_INET SOCK_STREAM, SetupStep.setReuseAddr]
  if !bindOk then
    (createReuse ++ [SetupStep.bindStep HOST PORT],
     Except.error StartupErr.bindFail)
  else if !listenOk then
    (createReuse ++ [SetupStep.bindStep HOST PORT,
        SetupStep.listenStep REQUEST_QUEUE_SIZE],
     Except.error StartupErr.listenFail)
  else
    (createReuse ++ [SetupStep.bindStep HOST PORT,
        SetupStep.listenStep REQUEST_QUEUE_SIZE],
     Except.ok
       { family := AF_INET, sockType := SOCK_STREAM, reuseAddr := true,
         boundHost := HOST, boundPort := PORT,
         backlog := REQUEST_QUEUE_SIZE })

/-- The result of one listen_socket.accept() call: an accepted connection
carrying the bytes its client will send, or an OSError with the given
errno. -/
inductive AcceptRes where
  | conn (input : List Nat)
  | oserr (errno : Nat)
deriving Repr, DecidableEq

/-- Environment of one iteration of the accept loop: the accept result,
the fork result seen by the parent (the child pid, or the OSError raised
by os.fork), and whether the spawned Worker later fails while handling
its connection.  The Worker runs in a separate process, so the last
field has no channel back to the Listener. -/
structure IterEvent where
  acc : AcceptRes
  fork : Except Unit Nat
  workerFails : Bool
deriving Repr

/-- The part of an iteration event the Listener can observe: the accept
result and its own fork result, but not the fate of the Worker. -/
def visible (e : IterEvent) : AcceptRes × Except Unit Nat := (e.acc, e.fork)

/-- State of the Listener process: whether its listening socket is still
open, the inputs of the connections handed to Workers so far, and for
each accepted connection the operations the Listener itself performed on
it. -/
structure ListenerState where
  listenOpen : Bool
  spawned : List (List Nat)
  connActions : List (List Action)
deriving Repr, DecidableEq

/-- Final observation of a run of the accept loop on a finite event
trace: still serving when the trace is exhausted, or terminated by the
re-raised accept OSError, or terminated by the uncaught os.fork
OSError. -/
inductive ServerOutcome where
  | serving (l : ListenerState)
  | acceptCrash (l : ListenerState) (errno : Nat)
  | forkCrash (l : ListenerState)
deriving Repr, DecidableEq

/-- The Listener state recorded in an outcome. -/
def outListener : ServerOutcome → ListenerState
  | ServerOutcome.serving l => l
  | ServerOutcome.acceptCrash l _ => l
  | ServerOutcome.forkCrash l => l

/-- The while True accept loop of serve_forever, run against a finite
trace of iteration events.  An accept OSError with errno EINTR hits the
continue; any other errno is re-raised and terminates the loop.  On a
successful accept, os.fork either raises (uncaught, terminating the
loop) or returns the child pid, and the parent branch only does
client_conn.close() before looping; the listening socket is not
touched. -/
def serve_loop : List IterEvent → ListenerState → ServerOutcome
  | [], l => ServerOutcome.serving l
  | e :: rest, l =>
    match e.acc with
    | AcceptRes.oserr n =>
        if n = EINTR then serve_loop rest l
        else ServerOutcome.acceptCrash l n
    | AcceptRes.conn input =>
        match e.fork with
        | Except.error _ => ServerOutcome.forkCrash l
        | Except.ok _pid =>
            serve_loop rest
              { listenOpen := l.listenOpen,
                spawned := l.spawned ++ [input],
                connActions := l.connActions ++ [[Action.closeConn]] }

/-- The Listener state when the loop is entered: listening socket open,
nothing accepted yet. -/
def initListener : ListenerState :=
  { listenOpen := true, spawned := [], connActions := [] }

/-- serve_forever: run the startup sequence; a bind or listen error
propagates and the accept loop is never entered; otherwise run the
accept loop from the initial Listener state. -/
def serve_forever (bindOk listenOk : Bool) (events : List IterEvent) :
    Except StartupErr ServerOutcome :=
  match (startup bindOk listenOk).2 with
  | Except.error e => Except.error e
  | Except.ok _ => Except.ok (serve_loop events initListener)

theorem take_ne_nil_of_ne_nil (l : List Nat) (h : l ≠ []) :
    l.take BUFFER_SIZE ≠ [] := by
  cases l with
  | nil => exact absurd rfl h
  | cons a t => simp [BUFFER_SIZE, List.take]

theorem handle_request_sent_of_nonempty (input : List Nat) (h : input ≠ []) :
    (handle_request (freshWorker input)).conn.sent = response ∧
    (handle_request (freshWorker input)).log =
      [Action.recvA (input.take BUFFER_SIZE), Action.sendA response] := by
  have hne : input.take BUFFER_SIZE ≠ [] := take_ne_nil_of_ne_nil input h
  constructor
  · simp [handle_request, w_recv, w_sendall, freshWorker, hne]
  · simp [handle_request, w_recv, w_sendall, freshWorker, hne]

theorem response_eq_specResponse : response = specResponse := by decide

/-- Claim C1: whenever the first read on a connection returns a non-empty
byte string, handle_request writes exactly the fixed response bytes
(status line HTTP/1.1 200 OK, header Content-Type: text/plain, a blank
line, body Hello, World! with a trailing newline, LF line endings) in
full, and writes nothing else. -/
theorem C1_nonempty_read_fixed_response (input : List Nat) (h : input ≠ []) :
    (handle_request (freshWorker input)).conn.sent = specResponse ∧
    (handle_request (freshWorker input)).log =
      [Action.recvA (input.take BUFFER_SIZE), Action.sendA response] := by
  have hs := handle_request_sent_of_nonempty input h
  exact ⟨hs.1.trans response_eq_specResponse, hs.2⟩

/-- Witness for C1 at the concrete input GET (bytes 71 69 84). -/
theorem C1_witness :
    (handle_request (freshWorker [71, 69, 84])).conn.sent = specResponse ∧
    (handle_request (freshWorker [71, 69, 84])).log =
      [Action.recvA [71, 69, 84], Action.sendA response] :=
  C1_nonempty_read_fixed_response [71, 69, 84] (by decide)

/-- Claim C2: when the read yields zero bytes (peer closed without
sending data), handle_request returns immediately and writes zero
response bytes: nothing is sent and no send operation is performed. -/
theorem C2_empty_read_no_response (input : List Nat)
    (h : input.take BUFFER_SIZE = []) :
    (handle_request (freshWorker input)).conn.sent = [] ∧
    ∀ d, Action.sendA d ∉ (handle_request (freshWorker input)).log := by
  constructor
  · simp [handle_request, w_recv, freshWorker, h]
  · intro d
    simp [handle_request, w_recv, freshWorker, h]

/-- Witness for C2 at the empty input. -/
theorem C2_witness :
    (handle_request (freshWorker [])).conn.sent = [] ∧
    ∀ d, Action.sendA d ∉ (handle_request (freshWorker [])).log :=
  C2_empty_read_no_response [] (by decide)

/-- Claim C6: the response written on a non-empty read does not depend on
the content or length of the input; any two connections with non-empty
first reads receive identical bytes. -/
theorem C6_response_independent_of_input (i1 i2 : List Nat)
    (h1 : i1 ≠ []) (h2 : i2 ≠ []) :
    (handle_request (freshWorker i1)).conn.sent =
      (handle_request (freshWorker i2)).conn.sent := by
  rw [(handle_request_sent_of_nonempty i1 h1).1,
      (handle_request_sent_of_nonempty i2 h2).1]

/-- Witness for C6 at two concrete distinct inputs. -/
theorem C6_witness :
    (handle_request (freshWorker [1])).conn.sent =
      (handle_request (freshWorker [2, 3, 4])).conn.sent :=
  C6_response_independent_of_input [1] [2, 3, 4] (by decide) (by decide)

theorem reap_children_drains_ok (zs : List (Nat × Nat))
    (h : ∀ z ∈ zs, z.1 ≠ 0) (rest : List (Except Unit (Nat × Nat))) :
    reap_children (zs.map Except.ok ++ Except.ok (0, 0) :: rest) =
      zs.map Prod.fst := by
  induction zs with
  | nil => simp [reap_children]
  | cons z t ih =>
      have hz : z.1 ≠ 0 := h z (List.mem_cons_self z t)
      have ht : ∀ w ∈ t, w.1 ≠ 0 := fun w hw => h w (List.mem_cons_of_mem z hw)
      cases z with
      | mk p st => simpa [reap_children, hz] using ih ht

theorem reap_children_drains_err (zs : List (Nat × Nat))
    (h : ∀ z ∈ zs, z.1 ≠ 0) (rest : List (Except Unit (Nat × Nat))) :
    reap_children (zs.map Except.ok ++ Except.error () :: rest) =
      zs.map Prod.fst := by
  induction zs with
  | nil => simp [reap_children]
  | cons z t ih =>
      have hz : z.1 ≠ 0 := h z (List.mem_cons_self z t)
      have ht : ∀ w ∈ t, w.1 ≠ 0 := fun w hw => h w (List.mem_cons_of_mem z hw)
      cases z with
      | mk p st => simpa [reap_children, hz] using ih ht

/-- Claim C4: one invocation of reap_children performs non-blocking
waitpid checks until one returns pid 0 or raises OSError, reaping every
child already terminated at the time of the checks (here: every leading
waitpid result with a nonzero pid), in both stopping cases; the OSError
is caught, ending only this loop, so the handler returns normally. -/
theorem C4_reaper_drains (zs : List (Nat × Nat))
    (h : ∀ z ∈ zs, z.1 ≠ 0) (rest : List (Except Unit (Nat × Nat))) :
    reap_children (zs.map Except.ok ++ Except.ok (0, 0) :: rest) =
      zs.map Prod.fst ∧
    reap_children (zs.map Except.ok ++ Except.error () :: rest) =
      zs.map Prod.fst :=
  ⟨reap_children_drains_ok zs h rest, reap_children_drains_err zs h rest⟩

/-- Witness for C4: two already-terminated children with pids 12 and 7
are both reaped whether the draining stops on pid 0 or on OSError. -/
theorem C4_witness :
    reap_children ([(12, 0), (7, 1)].map Except.ok ++
        Except.ok (0, 0) :: [Except.ok (99, 0)]) = [12, 7] ∧
    reap_children ([(12, 0), (7, 1)].map Except.ok ++
        Except.error () :: [Except.ok (99, 0)]) = [12, 7] :=
  C4_reaper_drains [(12, 0), (7, 1)] (by decide) [Except.ok (99, 0)]

/-- Claim C3: an accept OSError with errno EINTR makes the loop retry
accept and continue serving; an accept OSError with any other errno
terminates the loop as a crash carrying that errno. -/
theorem C3_accept_eintr_retries (n : Nat) (f : Except Unit Nat) (wf : Bool)
    (rest : List IterEvent) (l : ListenerState) (h : n ≠ EINTR) :
    serve_loop (⟨AcceptRes.oserr EINTR, f, wf⟩ :: rest) l =
      serve_loop rest l ∧
    serve_loop (⟨AcceptRes.oserr n, f, wf⟩ :: rest) l =
      ServerOutcome.acceptCrash l n := by
  constructor
  · simp [serve_loop]
  · simp [serve_loop, h]

/-- Witness for C3 at errno 9 and a singleton trace. -/
theorem C3_witness :
    serve_loop (⟨AcceptRes.oserr EINTR, Except.ok 1, false⟩ :: [])
        initListener = serve_loop [] initListener ∧
    serve_loop (⟨AcceptRes.oserr 9, Except.ok 1, false⟩ :: [])
        initListener = ServerOutcome.acceptCrash initListener 9 :=
  C3_accept_eintr_retries 9 (Except.ok 1) false [] initListener (by decide)

theorem serve_loop_worker_noninterference :
    ∀ (ev1 ev2 : List IterEvent), ev1.map visible = ev2.map visible →
      ∀ l, serve_loop ev1 l = serve_loop ev2 l := by
  intro ev1
  induction ev1 with
  | nil =>
      intro ev2 h l
      cases ev2 with
      | nil => rfl
      | cons b u => simp [List.map] at h
  | cons a t ih =>
      intro ev2 h l
      cases ev2 with
      | nil => simp [List.map] at h
      | cons b u =>
          simp [List.map, visible, Prod.ext_iff] at h
          obtain ⟨⟨hacc, hfork⟩, ht⟩ := h
          cases hb : b.acc with
          | oserr n =>
              by_cases hn : n = EINTR
              · simp [serve_loop, hacc, hb, hn, ih u ht]
              · simp [serve_loop, hacc, hb, hn]
          | conn input =>
              cases hf : b.fork with
              | error e => simp [serve_loop, hacc, hfork, hb, hf]
              | ok p => simp [serve_loop, hacc, hfork, hb, hf, ih u ht]

/-- Claim C5: after handle_request finishes, the child closes the
connection socket and exits with status 0; and the Listener cannot be
affected by a Worker failure: runs of the accept loop on event traces
that agree on everything the Listener observes, differing only in
whether Workers fail, are identical. -/
theorem C5_worker_isolation (input : List Nat) (ev1 ev2 : List IterEvent)
    (h : ev1.map visible = ev2.map visible) (l : ListenerState) :
    (child_branch (freshWorker input)).2 = 0 ∧
    (child_branch (freshWorker input)).1.log =
      (handle_request (w_closeListen (freshWorker input))).log ++
        [Action.closeConn, Action.exitA 0] ∧
    serve_loop ev1 l = serve_loop ev2 l := by
  refine ⟨rfl, ?_, serve_loop_worker_noninterference ev1 ev2 h l⟩
  simp [child_branch, w_closeConn, w_exit]

/-- Witness for C5: traces differing only in the Worker-failure flag. -/
theorem C5_witness :
    (child_branch (freshWorker [5])).2 = 0 ∧
    (child_branch (freshWorker [5])).1.log =
      (handle_request (w_closeListen (freshWorker [5]))).log ++
        [Action.closeConn, Action.exitA 0] ∧
    serve_loop (⟨AcceptRes.conn [1], Except.ok 7, true⟩ :: [])
        initListener =
      serve_loop (⟨AcceptRes.conn [1], Except.ok 7, false⟩ :: [])
        initListener :=
  C5_worker_isolation [5]
    (⟨AcceptRes.conn [1], Except.ok 7, true⟩ :: [])
    (⟨AcceptRes.conn [1], Except.ok 7, false⟩ :: [])
    rfl initListener

/-- Claim C7: the child branch is the linear sequence close listening
socket, then the single read, then a send of the fixed response exactly
when the read was non-empty, then close the connection, then exit 0,
with no other operation. -/
theorem C7_child_linear_sequence (input : List Nat) :
    (child_branch (freshWorker input)).1.log =
      Action.closeListen :: Action.recvA (input.take BUFFER_SIZE) ::
        ((if input.take BUFFER_SIZE = [] then []
          else [Action.sendA response]) ++
         [Action.closeConn, Action.exitA 0]) ∧
    (child_branch (freshWorker input)).2 = 0 := by
  by_cases hne : input.take BUFFER_SIZE = []
  · constructor
    · simp [child_branch, handle_request, w_recv, w_closeListen,
        w_closeConn, w_exit, freshWorker, hne]
    · rfl
  · constructor
    · simp [child_branch, handle_request, w_recv, w_sendall, w_closeListen,
        w_closeConn, w_exit, freshWorker, hne]
    · rfl

theorem serve_loop_listener_frame (events : List IterEvent) :
    ∀ l : ListenerState,
      (outListener (serve_loop events l)).listenOpen = l.listenOpen ∧
      ∀ a ∈ (outListener (serve_loop events l)).connActions,
        a ∈ l.connActions ∨ a = [Action.closeConn] := by
  induction events with
  | nil =>
      intro l
      exact ⟨rfl, fun a ha => Or.inl ha⟩
  | cons e rest ih =>
      intro l
      cases hb : e.acc with
      | oserr n =>
          by_cases hn : n = EINTR
          · simpa [serve_loop, hb, hn] using ih l
          · exact ⟨by simp [serve_loop, hb, hn, outListener],
              by simp [serve_loop, hb, hn, outListener]; exact fun a ha => Or.inl ha⟩
      | conn input =>
          cases hf : e.fork with
          | error u =>
              exact ⟨by simp [serve_loop, hb, hf, outListener],
                by simp [serve_loop, hb, hf, outListener]; exact fun a ha => Or.inl ha⟩
          | ok p =>
              have step := ih ⟨l.listenOpen, l.spawned ++ [input],
                l.connActions ++ [[Action.closeConn]]⟩
              constructor
              · simpa [serve_loop, hb, hf] using step.1
              · intro a ha
                have ha2 := step.2 a (by simpa [serve_loop, hb, hf] using ha)
                rcases ha2 with hmem | heq
                · rcases List.mem_append.mp hmem with hl | hr
                  · exact Or.inl hl
                  · exact Or.inr (by simpa using hr)
                · exact Or.inr heq

/-- Claim C8: over any run of the accept loop from startup, the parent
performs exactly one operation on each accepted connection, closing its
own copy, and the listening socket stays open in the Listener across
every iteration. -/
theorem C8_parent_closes_conn_only (events : List IterEvent) :
    (outListener (serve_loop events initListener)).listenOpen = true ∧
    (outListener (serve_loop events initListener)).connActions.all
      (fun a => a == [Action.closeConn]) = true := by
  have hframe := serve_loop_listener_frame events initListener
  constructor
  · exact hframe.1
  · rw [List.all_eq_true]
    intro a ha
    have := hframe.2 a ha
    rcases this with hmem | heq
    · simp [initListener] at hmem
    · simp [heq]

/-- Claim C9: startup performs, in order, socket creation (AF_INET,
SOCK_STREAM), SO_REUSEADDR, bind to the empty host and port 8888, and
listen with backlog 1024; and a bind or listen failure propagates out of
serve_forever before any connection is accepted. -/
theorem C9_startup_sequence (listenOk : Bool) (events : List IterEvent) :
    (startup true true).1 =
      [SetupStep.createSocket AF_INET SOCK_STREAM, SetupStep.setReuseAddr,
       SetupStep.bindStep "" 8888, SetupStep.listenStep 1024] ∧
    (startup true true).2 = Except.ok
      { family := AF_INET, sockType := SOCK_STREAM, reuseAddr := true,
        boundHost := "", boundPort := 8888, backlog := 1024 } ∧
    serve_forever false listenOk events = Except.error StartupErr.bindFail ∧
    serve_forever true false events = Except.error StartupErr.listenFail :=
  ⟨rfl, rfl, rfl, rfl⟩

/-- Claim C10: an os.fork OSError is caught nowhere in the accept loop
and terminates the Listener (the loop does not continue with later
events), while an EINTR accept failure in the same loop is recovered. -/
theorem C10_fork_failure_fatal (input : List Nat) (f : Except Unit Nat)
    (wf wf2 : Bool) (rest : List IterEvent) (l : ListenerState) :
    serve_loop (⟨AcceptRes.conn input, Except.error (), wf⟩ :: rest) l =
      ServerOutcome.forkCrash l ∧
    serve_loop (⟨AcceptRes.oserr EINTR, f, wf2⟩ :: rest) l =
      serve_loop rest l := by
  constructor
  · simp [serve_loop]
  · simp [serve_loop]

end Server
